import Mathlib

/-!
Shallow embedding of the catalog-construction pipeline of the
nomad-stac-converter repository (src/processing.py, src/io.py, src/cli.py,
src/stac_extra/ssys_extension.py), together with theorems settling the
claims about its natural-language specification.

Conventions of the embedding:
- timestamps are modelled as `Int` (a strictly monotone abstraction of the
  datetime values; `pd.to_datetime` yields totally ordered instants);
- geometry footprints are abstracted by their bounding boxes
  `(minx, miny, maxx, maxy)` with integer coordinates, which is all the
  pipeline reads from them (`shapely.bounds`, `GeoSeries.total_bounds`);
- Python dictionaries (`item.properties`, `item.assets`) are association
  lists with the update-or-append semantics of dict assignment;
- raised Python exceptions become `Except` errors carrying the exception
  class name and message (`PyErr`).
-/

namespace NomadStac

/-- Exception raised by the Python code: class name and message. -/
structure PyErr where
  cls : String
  msg : String
  deriving DecidableEq, Repr

/-- Class name of the error of an `Except` result, `none` on success. -/
def err_cls {α : Type} : Except PyErr α → Option String
  | .error e => some e.cls
  | .ok _ => none

/-- Spectral band descriptor (pystac.extensions.eo.Band, built in
src/instrument.py via Band.create; the float wavelength fields are inert
configuration data and are carried as-is by the pipeline). -/
structure Band where
  name : String
  common_name : String
  description : String
  deriving DecidableEq, Repr

/-- Values stored in a properties dictionary. -/
inductive PropVal where
  | str (s : String)
  | int (n : Int)
  | strList (l : List String)
  | bandList (l : List Band)
  deriving DecidableEq, Repr

/-- Python dict assignment `d[k] = v` on an association list: update the
existing binding in place, otherwise append the new binding. -/
def setKV {α : Type} : List (String × α) → String → α → List (String × α)
  | [], k, v => [(k, v)]
  | (k0, v0) :: rest, k, v =>
      if k0 = k then (k, v) :: rest else (k0, v0) :: setKV rest k v

/-- Python dict lookup `d.get(k)` on an association list. -/
def lookupKV {α : Type} : List (String × α) → String → Option α
  | [], _ => none
  | (k0, v0) :: rest, k => if k0 = k then some v0 else lookupKV rest k

/-- One row of the unified GeoDataFrame (an observation record).  The
geometry is abstracted by its bounds.  Every column the pipeline touches is
present; the domain-attribute columns (angles, temperature, scene-center
coordinates) are carried so that theorems can ask whether they reach the
item properties. -/
structure ObsRecord where
  psa_lid : String
  minx : Int
  miny : Int
  maxx : Int
  maxy : Int
  utc_start_time : Int
  utc_end_time : Int
  diffraction_order : Int
  incidence_angle : Int
  emergence_angle : Int
  phase_angle : Int
  channel_temperature : Int
  lat : Int
  lon : Int
  hdf5_filename : String
  martian_year : Int
  ls : Int
  local_solar_time : String
  deriving DecidableEq, Repr

/-- pystac.Asset: href plus media type. -/
structure Asset where
  href : String
  media_type : String
  deriving DecidableEq, Repr

/-- pystac.Item: identifier, bbox, the three datetime attributes, the
properties bag, named assets and the list of extension schema URIs. -/
structure Item where
  id : String
  bbox : List Int
  datetime : Int
  start_datetime : Int
  end_datetime : Int
  properties : List (String × PropVal)
  assets : List (String × Asset)
  stac_extensions : List String
  deriving DecidableEq, Repr

/-- pystac.SpatialExtent: list of bounding boxes. -/
structure SpatialExtent where
  bboxes : List (List Int)
  deriving DecidableEq, Repr

/-- pystac.TemporalExtent: list of intervals. -/
structure TemporalExtent where
  intervals : List (Int × Int)
  deriving DecidableEq, Repr

/-- pystac.Extent. -/
structure Extent where
  spatial : SpatialExtent
  temporal : TemporalExtent
  deriving DecidableEq, Repr

/-- pystac.Collection: identifier, description, extent, license, the items
added with add_item, child collections added with add_child, and extension
URIs.  A nested inductive because collections may hold sub-collections. -/
inductive Collection where
  | mk (id : String) (description : String) (extent : Extent) (license : String)
      (items : List Item) (children : List Collection)
      (stac_extensions : List String)

/-- Identifier of a collection. -/
def Collection.id : Collection → String
  | .mk i _ _ _ _ _ _ => i

/-- Items held directly by a collection. -/
def Collection.items : Collection → List Item
  | .mk _ _ _ _ its _ _ => its

/-- Child (sub-)collections of a collection. -/
def Collection.children : Collection → List Collection
  | .mk _ _ _ _ _ ch _ => ch

/-- Extent of a collection. -/
def Collection.extent : Collection → Extent
  | .mk _ _ e _ _ _ _ => e

/-- Collection.add_item: appends the item to the collection. -/
def Collection.add_item : Collection → Item → Collection
  | .mk i d e l its ch ex, it => .mk i d e l (its ++ [it]) ch ex

/-- pystac.Catalog: identifier, description and child collections. -/
structure Catalog where
  id : String
  description : String
  children : List Collection

/-- Catalog.add_child: appends a collection to the catalog children. -/
def Catalog.add_child (cat : Catalog) (c : Collection) : Catalog :=
  { cat with children := cat.children ++ [c] }

/-! Constants of src/stac_extra/ssys_extension.py.  The source builds the
property keys as `PREFIX + name` with the prefix constant "ssys:". -/

/-- SCHEMA_URI of the solar-system extension. -/
def SCHEMA_URI : String := "https://stac-extensions.github.io/ssys/v1.1.0/schema.json"

/-- TARGETS_PROPS = "ssys:" + "targets". -/
def TARGETS_PROPS : String := "ssys:targets"

/-- LOCAL_TIME_PROPS = "ssys:" + "local_time". -/
def LOCAL_TIME_PROPS : String := "ssys:local_time"

/-- TARGET_CLASS_PROPS = "ssys:" + "target_class". -/
def TARGET_CLASS_PROPS : String := "ssys:target_class"

/-- SolSysTargetClass enumeration (StringEnum in the source). -/
inductive SolSysTargetClass where
  | asteroid
  | dwarf_planet
  | planet
  | satellite
  | comet
  | exoplanet
  | interplanetary_medium
  | sample
  | sky
  | spacecraft
  | spacejunk
  | star
  | calibration
  deriving DecidableEq, Repr

/-- String value of a SolSysTargetClass member. -/
def SolSysTargetClass.value : SolSysTargetClass → String
  | .asteroid => "asteroid"
  | .dwarf_planet => "dwarf_planet"
  | .planet => "planet"
  | .satellite => "satellite"
  | .comet => "comet"
  | .exoplanet => "exoplanet"
  | .interplanetary_medium => "interplanetary_medium"
  | .sample => "sample"
  | .sky => "sky"
  | .spacecraft => "spacecraft"
  | .spacejunk => "spacejunk"
  | .star => "star"
  | .calibration => "calibration"

/-- ExtensionManagementMixin.ensure_has_extension with add_if_missing: adds
the schema URI to the stac_extensions list unless already present. -/
def ensure_has_extension (it : Item) (uri : String) (add_if_missing : Bool) : Item :=
  if add_if_missing && !(it.stac_extensions.contains uri) then
    { it with stac_extensions := it.stac_extensions ++ [uri] }
  else it

/-- SolSysExtension.apply: the three setters write the namespaced
properties through _set_property with pop_if_none=False, i.e. plain dict
assignment on item.properties, in the order targets, local_time,
target_class. -/
def ssys_apply (it : Item) (targets : List String) (local_time : String)
    (target_class : SolSysTargetClass) : Item :=
  let p := setKV (setKV (setKV it.properties TARGETS_PROPS (.strList targets))
    LOCAL_TIME_PROPS (.str local_time)) TARGET_CLASS_PROPS (.str target_class.value)
  { it with properties := p }

/-- Objects a caller may hand to SolSysExtension.ext (the source annotates
obj as pystac.Item but tests the type at runtime). -/
inductive STACObject where
  | item (it : Item)
  | collection (c : Collection)
  | asset (a : Asset)

/-- Whether the object is a pystac.Item (the isinstance test of ext). -/
def STACObject.isItem : STACObject → Bool
  | .item _ => true
  | _ => false

/-- type(obj).__name__ for the error message of ext. -/
def STACObject.typeName : STACObject → String
  | .item _ => "Item"
  | .collection _ => "Collection"
  | .asset _ => "Asset"

/-- Wrapper returned by SolSysExtension.ext: holds the (possibly extended)
item; its properties field aliases the item properties. -/
structure SolSysExtensionW where
  item : Item
  deriving DecidableEq, Repr

/-- SolSysExtension.ext: returns the wrapper when the object is an Item
(after ensure_has_extension), otherwise raises pystac.ExtensionTypeError. -/
def SolSysExtension_ext (obj : STACObject) (add_if_missing : Bool) :
    Except PyErr SolSysExtensionW :=
  match obj with
  | .item it => .ok ⟨ensure_has_extension it SCHEMA_URI add_if_missing⟩
  | other =>
      .error ⟨"ExtensionTypeError",
        "SolSysExtension does not apply to type " ++ other.typeName⟩

/-! Embedding of the pystac pieces the pipeline uses. -/

/-- Schema URI of the EO extension (pystac.extensions.eo). -/
def EO_SCHEMA_URI : String := "https://stac-extensions.github.io/eo/v1.1.0/schema.json"

/-- Schema URI of the Projection extension (pystac.extensions.projection). -/
def PROJECTION_SCHEMA_URI : String :=
  "https://stac-extensions.github.io/projection/v1.1.0/schema.json"

/-- EOExtension.apply(bands=...): stores the band list under eo:bands. -/
def eo_apply (it : Item) (bands : List Band) : Item :=
  { it with properties := setKV it.properties "eo:bands" (.bandList bands) }

/-- ProjectionExtension.apply(wkt2=...): stores the WKT2 string under
proj:wkt2. -/
def proj_apply (it : Item) (wkt2 : String) : Item :=
  { it with properties := setKV it.properties "proj:wkt2" (.str wkt2) }

/-- CommonMetadata.platform setter: properties["platform"]. -/
def set_platform (it : Item) (v : String) : Item :=
  { it with properties := setKV it.properties "platform" (.str v) }

/-- CommonMetadata.instruments setter: properties["instruments"]. -/
def set_instruments (it : Item) (v : List String) : Item :=
  { it with properties := setKV it.properties "instruments" (.strList v) }

/-- CommonMetadata.constellation setter: properties["constellation"]. -/
def set_constellation (it : Item) (v : String) : Item :=
  { it with properties := setKV it.properties "constellation" (.str v) }

/-- CommonMetadata.mission setter: properties["mission"]. -/
def set_mission (it : Item) (v : String) : Item :=
  { it with properties := setKV it.properties "mission" (.str v) }

/-- pystac.Item constructor as called by gpd_line_to_item: records the
datetime attributes and writes the serialized temporal properties into the
given properties bag. -/
def pystac_Item (id : String) (bbox : List Int) (dt sdt edt : Int)
    (properties : List (String × PropVal)) : Item :=
  let p := setKV (setKV (setKV properties "datetime" (.int dt))
    "start_datetime" (.int sdt)) "end_datetime" (.int edt)
  { id := id
    bbox := bbox
    datetime := dt
    start_datetime := sdt
    end_datetime := edt
    properties := p
    assets := []
    stac_extensions := [] }

/-- shapely.bounds of the record geometry: [minx, miny, maxx, maxy]. -/
def bounds (r : ObsRecord) : List Int :=
  [r.minx, r.miny, r.maxx, r.maxy]

/-- CatalogCreator.gpd_line_to_item (src/processing.py lines 197-225):
builds the item with an empty properties bag, datetime and start_datetime
both set to utc_start_time, end_datetime to utc_end_time, then stamps the
fixed platform metadata. -/
def gpd_line_to_item (df_line : ObsRecord) : Item :=
  let item := pystac_Item df_line.psa_lid (bounds df_line)
    df_line.utc_start_time df_line.utc_start_time df_line.utc_end_time []
  set_constellation
    (set_instruments (set_platform item "exomars-trace-gas-orbiter") ["nomad"])
    "exomars"

/-- CatalogCreator.add_asset (src/processing.py lines 227-238): attaches
the "dataformat" asset with the HDF5 media type. -/
def add_asset (item : Item) (data_row : ObsRecord) : Item :=
  let a := setKV item.assets "dataformat" ⟨data_row.hdf5_filename, "application/x-hdf5"⟩
  { item with assets := a }

/-- The WKT2 constant default_wkt of add_extensions.  The full PROJCRS body
for Mars (2015) / Ographic / Lambert Conic Conformal is an inert string
constant never inspected by the pipeline; its text is abbreviated here. -/
def default_wkt : String :=
  "PROJCRS[Mars (2015) / Ographic / Lambert Conic Conformal, ...]"

/-- CatalogCreator.add_extensions (src/processing.py lines 240-311):
applies the EO, solar-system and projection extensions, then overwrites
mission and instruments through common_metadata. -/
def add_extensions (bands : List Band) (item : Item) (data_row : ObsRecord) : Item :=
  let item := eo_apply (ensure_has_extension item EO_SCHEMA_URI true) bands
  let item := ensure_has_extension item SCHEMA_URI true
  let mars_local_time :=
    toString data_row.martian_year ++ ":" ++ toString data_row.ls ++ ":"
      ++ data_row.local_solar_time
  let item := ssys_apply item ["mars"] mars_local_time .planet
  let item := proj_apply (ensure_has_extension item PROJECTION_SCHEMA_URI true) default_wkt
  set_instruments (set_mission item "ExoMars") ["NOMAD"]

/-- The per-row item construction of the create_catalog loop
(src/processing.py lines 171-175): build the item, add the asset, apply
the extensions. -/
def build_row (bands : List Band) (row : ObsRecord) : Item :=
  add_extensions bands (add_asset (gpd_line_to_item row) row) row

/-! Record table loading (RawDataAnalysis and IoHandler). -/

/-- Result of RawDataAnalysis.read_geojson on one source file: either the
parsed rows or the exception it raised. -/
inductive ParseResult where
  | ok (rows : List ObsRecord)
  | err (cls : String) (msg : String)
  deriving DecidableEq, Repr

/-- One entry of the input folder: name, file extension and what
read_geojson would yield on it.  Directory entries carry a non-matching
extension. -/
structure InputFile where
  name : String
  ext : String
  parse : ParseResult
  deriving DecidableEq, Repr

/-- IoHandler.all_input_files_from_ext: the files whose extension matches. -/
def all_input_files_from_ext (files : List InputFile) (extension : String) :
    List InputFile :=
  files.filter (fun f => f.ext == extension)

/-- The file iterator of folder_as_geopandas: all geojson files, then all
json files (itertools.chain of the two rglob calls). -/
def input_file_iterator (files : List InputFile) : List InputFile :=
  all_input_files_from_ext files "geojson" ++ all_input_files_from_ext files "json"

/-- The list comprehension `[read_geojson(fn) for fn in file_iterator]`. -/
def read_results (files : List InputFile) : List ParseResult :=
  (input_file_iterator files).map (·.parse)

/-- First exception raised while evaluating the comprehension, if any. -/
def first_parse_err : List ParseResult → Option PyErr
  | [] => none
  | .ok _ :: rest => first_parse_err rest
  | .err c m :: _ => some ⟨c, m⟩

/-- pd.concat over the parsed frames: all rows in enumeration order. -/
def concat_rows : List ParseResult → List ObsRecord
  | [] => []
  | .ok rows :: rest => rows ++ concat_rows rest
  | .err _ _ :: rest => concat_rows rest

/-- RawDataAnalysis.folder_as_geopandas (src/processing.py lines 48-63):
reads every matching file; the first exception of the comprehension is
logged and re-raised unchanged; pd.concat on an empty frame list raises
ValueError; otherwise the concatenated table is returned. -/
def folder_as_geopandas (files : List InputFile) : Except PyErr (List ObsRecord) :=
  match first_parse_err (read_results files) with
  | some e => .error e
  | none =>
      if (input_file_iterator files).isEmpty then
        .error ⟨"ValueError", "No objects to concatenate"⟩
      else
        .ok (concat_rows (read_results files))

/-- The enumerated values of cli.FileFormat (src/cli.py lines 12-16):
note the "geosjon" member value and the "gpkg" member value. -/
def FileFormat_values : List String := ["shp", "geosjon", "gpkg", "other"]

/-- RawDataAnalysis.save_to_format (src/processing.py lines 83-98):
loads the unified table, then writes it according to fmt_name.  The write
log records one event per written file, tagging the filename with the
driver used; "default" stands for the driver gdf.to_file chooses when none
is passed.  Branches compare against "geojson" and "geopackage" literally,
as in the source. -/
def save_to_format (files : List InputFile) (filename : String) (fmt_name : String) :
    Except PyErr (List ObsRecord × List String) :=
  match folder_as_geopandas files with
  | .error e => .error e
  | .ok gdf =>
      if fmt_name = "shp" ∨ fmt_name = "other" then
        .ok (gdf, ["export:" ++ filename ++ ":default"])
      else if fmt_name = "geojson" then
        .ok (gdf, ["export:" ++ filename ++ ":GeoJSON"])
      else if fmt_name = "geopackage" then
        .ok (gdf, ["export:" ++ filename ++ ":GPKG"])
      else
        .ok (gdf, [])

/-! Extent computation (src/processing.py lines 146-163). -/

/-- Fold of min over a list with an initial value. -/
def foldlMin (x : Int) (xs : List Int) : Int := xs.foldl min x

/-- Fold of max over a list with an initial value. -/
def foldlMax (x : Int) (xs : List Int) : Int := xs.foldl max x

/-- df.geometry.total_bounds: component-wise (min minx, min miny, max maxx,
max maxy) over all record geometry bounds.  On an empty frame geopandas
yields NaN bounds; callers guard non-emptiness, and the empty case here is
an arbitrary placeholder. -/
def total_bounds (rows : List ObsRecord) : Int × Int × Int × Int :=
  match rows with
  | [] => (0, 0, 0, 0)
  | r :: rest =>
      (foldlMin r.minx (rest.map (·.minx)), foldlMin r.miny (rest.map (·.miny)),
        foldlMax r.maxx (rest.map (·.maxx)), foldlMax r.maxy (rest.map (·.maxy)))

/-- total_bounds.tolist(). -/
def total_bounds_list (rows : List ObsRecord) : List Int :=
  [(total_bounds rows).1, (total_bounds rows).2.1,
    (total_bounds rows).2.2.1, (total_bounds rows).2.2.2]

/-- df.utc_start_time.sort_values().head(1).item(): the least start time
(sorting ascending and taking the first element computes the minimum).  On
an empty frame .item() raises; callers guard non-emptiness. -/
def utc_start_min (rows : List ObsRecord) : Int :=
  match rows with
  | [] => 0
  | r :: rest => foldlMin r.utc_start_time (rest.map (·.utc_start_time))

/-- df.utc_end_time.sort_values(ascending=False).head(1).item(): the
greatest end time. -/
def utc_end_max (rows : List ObsRecord) : Int :=
  match rows with
  | [] => 0
  | r :: rest => foldlMax r.utc_end_time (rest.map (·.utc_end_time))

/-- The collection extent built in create_catalog: one spatial bbox
(total_bounds) and one temporal interval [min start, max end]. -/
def collection_extent (rows : List ObsRecord) : Extent :=
  ⟨⟨[total_bounds_list rows]⟩, ⟨[(utc_start_min rows, utc_end_max rows)]⟩⟩

/-! The build entry point (CatalogCreator.create_catalog). -/

/-- State of the two folders the build reads and writes: all entries of the
input folder (files and directories, as counted by count_input_elements)
and the entries of the output folder. -/
structure BuildState where
  input_files : List InputFile
  output_contents : List String
  deriving DecidableEq, Repr

/-- IoHandler.is_input_folder_empty: no entry under the input folder. -/
def is_input_folder_empty (st : BuildState) : Bool := st.input_files.isEmpty

/-- IoHandler.is_output_folder_empty: no entry under the output folder. -/
def is_output_folder_empty (st : BuildState) : Bool := st.output_contents.isEmpty

/-- Message of the FileNotFoundError raised on an empty input folder. -/
def input_empty_msg : String := "Your folder is empty! Download the data first."

/-- Message of the ValueError raised on a non-empty output folder (the
stray backtick of the source message is elided). -/
def output_not_empty_msg : String :=
  "The output folder is not empty. Please clean it first or set clean_previous_output to True"

/-- Files written by catalog.save for the items of a collection. -/
def item_writes (items : List Item) : List String :=
  items.map (fun it => "item:" ++ it.id)

mutual

/-- Files written by catalog.save for a collection and its descendants. -/
def collection_writes : Collection → List String
  | .mk i _ _ _ items children _ =>
      ("collection:" ++ i) :: (item_writes items ++ collections_writes children)

/-- Files written for a list of collections. -/
def collections_writes : List Collection → List String
  | [] => []
  | c :: cs => collection_writes c ++ collections_writes cs

end

/-- Files written by catalog.normalize_hrefs + catalog.save: one JSON
document per catalog, collection and item. -/
def catalog_writes (cat : Catalog) : List String :=
  ("catalog:" ++ cat.id) :: collections_writes cat.children

/-- CatalogCreator.create_catalog (src/processing.py lines 121-195).
Returns the outcome together with the log of files written to disk, in
order.  Control flow of the source: empty-input check (FileNotFoundError),
non-empty-output check (ValueError unless clean_previous_output, which
instead clears the folder), the intermediate export through save_to_format
with fmt_name="csv", extent computation (ValueError via .item() on an
empty table), the item loop over the rows in table order into a single
collection, add_child to the catalog, then normalize and save. -/
def create_catalog (catalog_id : String) (catalog_descr : String)
    (bands : List Band) (st : BuildState)
    (self_contained : Bool) (clean_previous_output : Bool) :
    Except PyErr Catalog × List String :=
  if is_input_folder_empty st then
    (.error ⟨"FileNotFoundError", input_empty_msg⟩, [])
  else if !is_output_folder_empty st && !clean_previous_output then
    (.error ⟨"ValueError", output_not_empty_msg⟩, [])
  else
    match save_to_format st.input_files "lno_10_days.csv" "csv" with
    | .error e => (.error e, [])
    | .ok (df, interm_writes) =>
        if df.isEmpty then
          (.error ⟨"ValueError", "can only convert an array of size 1 to a Python scalar"⟩,
            interm_writes)
        else
          let collection0 : Collection :=
            .mk "lno-10-days-2018" "Nomad LNO Samples over 2018"
              (collection_extent df) "CC-BY-SA-4.0" [] [] []
          let collection :=
            df.foldl (fun c row => c.add_item (build_row bands row)) collection0
          let catalog : Catalog :=
            Catalog.add_child ⟨catalog_id, catalog_descr, []⟩ collection
          (.ok catalog, interm_writes ++ catalog_writes catalog)

/-! Concrete data used by witnesses and counterexamples. -/

/-- A concrete observation record. -/
def ex_record : ObsRecord :=
  { psa_lid := "urn:esa:psa:em16_tgo_nmd:data_raw:lno_20180422_000000"
    minx := 10, miny := -5, maxx := 20, maxy := 5
    utc_start_time := 100, utc_end_time := 200
    diffraction_order := 1
    incidence_angle := 30, emergence_angle := 40, phase_angle := 50
    channel_temperature := -10, lat := 12, lon := 34
    hdf5_filename := "20180422_000000_0p2a_LNO_1.h5"
    martian_year := 34, ls := 150, local_solar_time := "12.34" }

/-- A second concrete record with a different diffraction order. -/
def ex_record2 : ObsRecord :=
  { ex_record with
    psa_lid := "urn:esa:psa:em16_tgo_nmd:data_raw:lno_20180423_000000"
    minx := 0, maxx := 15
    utc_start_time := 150, utc_end_time := 250
    diffraction_order := 2
    hdf5_filename := "20180423_000000_0p2a_LNO_2.h5" }

/-- A concrete input file parsing to one record. -/
def ex_file1 : InputFile := ⟨"a.geojson", "geojson", .ok [ex_record]⟩

/-- A concrete input file parsing to one record of order 2. -/
def ex_file2 : InputFile := ⟨"b.geojson", "geojson", .ok [ex_record2]⟩

/-- A concrete input file whose parse raises. -/
def bad_file : InputFile :=
  ⟨"c.json", "json", .err "JSONDecodeError" "Expecting value: line 1 column 1 (char 0)"⟩

/-! Association-list lemmas about the dict-assignment semantics. -/

/-- Looking up a key right after assigning it yields the assigned value. -/
theorem lookup_setKV_self {α : Type} (l : List (String × α)) (k : String) (v : α) :
    lookupKV (setKV l k v) k = some v := by
  induction l with
  | nil => simp [setKV, lookupKV]
  | cons h0 t ih =>
      obtain ⟨k0, v0⟩ := h0
      by_cases hk : k0 = k
      · simp [setKV, hk, lookupKV]
      · simp [setKV, hk, lookupKV, ih]

/-- Assigning one key does not change the binding of another. -/
theorem lookup_setKV_ne {α : Type} (l : List (String × α)) {k q : String}
    (h : q ≠ k) (v : α) : lookupKV (setKV l q v) k = lookupKV l k := by
  induction l with
  | nil => simp [setKV, lookupKV, h]
  | cons h0 t ih =>
      obtain ⟨k0, v0⟩ := h0
      by_cases hk : k0 = q
      · subst hk; simp [setKV, lookupKV, h]
      · simp [setKV, hk, lookupKV, ih]

/-- Assigning a key the value it already holds leaves the dict unchanged. -/
theorem setKV_of_lookup_eq {α : Type} (l : List (String × α)) (k : String) (v : α)
    (h : lookupKV l k = some v) : setKV l k v = l := by
  induction l with
  | nil => simp [lookupKV] at h
  | cons h0 t ih =>
      obtain ⟨k0, v0⟩ := h0
      by_cases hk : k0 = k
      · subst hk
        have hv : v0 = v := by simpa [lookupKV] using h
        simp [setKV, ← hv]
      · simp only [lookupKV, if_neg hk] at h
        simp [setKV, hk, ih h]

/-- Re-running the three property assignments of SolSysExtension.apply with
the same values is the identity on an already-applied properties bag. -/
theorem ssys_props_idem (p : List (String × PropVal)) (v1 v2 v3 : PropVal) :
    setKV (setKV (setKV (setKV (setKV (setKV p TARGETS_PROPS v1) LOCAL_TIME_PROPS v2)
        TARGET_CLASS_PROPS v3) TARGETS_PROPS v1) LOCAL_TIME_PROPS v2) TARGET_CLASS_PROPS v3
      = setKV (setKV (setKV p TARGETS_PROPS v1) LOCAL_TIME_PROPS v2) TARGET_CLASS_PROPS v3 := by
  have h1 : lookupKV (setKV (setKV (setKV p TARGETS_PROPS v1) LOCAL_TIME_PROPS v2)
      TARGET_CLASS_PROPS v3) TARGETS_PROPS = some v1 := by
    rw [lookup_setKV_ne _ (by decide), lookup_setKV_ne _ (by decide), lookup_setKV_self]
  rw [setKV_of_lookup_eq _ _ _ h1]
  have h2 : lookupKV (setKV (setKV (setKV p TARGETS_PROPS v1) LOCAL_TIME_PROPS v2)
      TARGET_CLASS_PROPS v3) LOCAL_TIME_PROPS = some v2 := by
    rw [lookup_setKV_ne _ (by decide), lookup_setKV_self]
  rw [setKV_of_lookup_eq _ _ _ h2]
  rw [setKV_of_lookup_eq _ _ _ (lookup_setKV_self _ _ _)]

/-- Claim C8: applying the solar-system extension twice with identical
arguments (targets, local_time, target_class) leaves the item — in
particular its serialized properties — equal to a single application:
re-application overwrites the previous values. -/
theorem c8_ssys_apply_idempotent (it : Item) (targets : List String)
    (local_time : String) (target_class : SolSysTargetClass) :
    ssys_apply (ssys_apply it targets local_time target_class) targets local_time target_class
      = ssys_apply it targets local_time target_class := by
  simp only [ssys_apply]
  rw [ssys_props_idem]

/-- Whether an Except result is a success. -/
def except_isOk {α : Type} : Except PyErr α → Bool
  | .ok _ => true
  | .error _ => false

/-- Claim C9: SolSysExtension.ext returns an extension wrapper exactly when
the object is a pystac.Item, and on every other object it raises
pystac.ExtensionTypeError. -/
theorem c9_ext_requires_item (obj : STACObject) (add_if_missing : Bool) :
    except_isOk (SolSysExtension_ext obj add_if_missing) = obj.isItem ∧
    (obj.isItem = false →
      err_cls (SolSysExtension_ext obj add_if_missing) = some "ExtensionTypeError") := by
  cases obj <;>
    simp [SolSysExtension_ext, STACObject.isItem, except_isOk, err_cls]

/-- A concrete collection (for the C9 witness). -/
def ex_collection : Collection :=
  .mk "lno-10-days-2018" "Nomad LNO Samples over 2018"
    (collection_extent [ex_record]) "CC-BY-SA-4.0" [] [] []

/-- Witness for C9: at a concrete pystac.Collection the call is rejected
with ExtensionTypeError. -/
theorem c9_ext_requires_item_witness :
    except_isOk (SolSysExtension_ext (.collection ex_collection) true)
        = (STACObject.collection ex_collection).isItem ∧
    err_cls (SolSysExtension_ext (.collection ex_collection) true)
        = some "ExtensionTypeError" :=
  ⟨(c9_ext_requires_item (.collection ex_collection) true).1,
    (c9_ext_requires_item (.collection ex_collection) true).2 rfl⟩

/-- Claim C10: the item built from a record has its nominal datetime equal
to the record utc_start_time (the same value as its start_datetime), and —
whenever the observation interval is non-degenerate — different from both
the end and the midpoint of the interval. -/
theorem c10_datetime_equals_start (r : ObsRecord) :
    (gpd_line_to_item r).datetime = r.utc_start_time ∧
    (gpd_line_to_item r).datetime = (gpd_line_to_item r).start_datetime ∧
    (r.utc_start_time < r.utc_end_time →
      (gpd_line_to_item r).datetime ≠ (gpd_line_to_item r).end_datetime ∧
      2 * (gpd_line_to_item r).datetime ≠ r.utc_start_time + r.utc_end_time) := by
  have hd : (gpd_line_to_item r).datetime = r.utc_start_time := rfl
  have he : (gpd_line_to_item r).end_datetime = r.utc_end_time := rfl
  refine ⟨rfl, rfl, fun h => ⟨?_, ?_⟩⟩
  · rw [hd, he]; omega
  · rw [hd]; omega

/-- Witness for C10 at a concrete record with a non-degenerate interval. -/
theorem c10_datetime_equals_start_witness :
    (gpd_line_to_item ex_record).datetime = ex_record.utc_start_time ∧
    (gpd_line_to_item ex_record).datetime = (gpd_line_to_item ex_record).start_datetime ∧
    ((gpd_line_to_item ex_record).datetime ≠ (gpd_line_to_item ex_record).end_datetime ∧
      2 * (gpd_line_to_item ex_record).datetime
        ≠ ex_record.utc_start_time + ex_record.utc_end_time) :=
  ⟨(c10_datetime_equals_start ex_record).1,
    (c10_datetime_equals_start ex_record).2.1,
    (c10_datetime_equals_start ex_record).2.2 (by decide)⟩

/-! Claim C1: which keys the item properties bag ends up holding. -/

/-- Domain-attribute property keys of the data model: the angles, the
channel temperature, the scene-center coordinates and the spectral index
(diffraction order). -/
def domain_attr_keys : List String :=
  ["incidence_angle", "emergence_angle", "phase_angle", "channel_temperature",
    "lat", "lon", "diffraction_order"]

/-- Stated from the claim wording (for refutation): the properties bag of
an item is populated with every domain attribute. -/
def domain_attrs_populated (props : List (String × PropVal)) : Prop :=
  ∀ k ∈ domain_attr_keys, (lookupKV props k).isSome = true

/-- The full properties bag produced by the per-row item construction:
serialized temporal fields, fixed platform metadata and the namespaced
extension properties, nothing else. -/
theorem build_row_props (r : ObsRecord) (bands : List Band) :
    (build_row bands r).properties =
      [("datetime", .int r.utc_start_time), ("start_datetime", .int r.utc_start_time),
        ("end_datetime", .int r.utc_end_time),
        ("platform", .str "exomars-trace-gas-orbiter"),
        ("instruments", .strList ["NOMAD"]), ("constellation", .str "exomars"),
        ("eo:bands", .bandList bands), (TARGETS_PROPS, .strList ["mars"]),
        (LOCAL_TIME_PROPS, .str (toString r.martian_year ++ ":" ++ toString r.ls
          ++ ":" ++ r.local_solar_time)),
        (TARGET_CLASS_PROPS, .str "planet"), ("proj:wkt2", .str default_wkt),
        ("mission", .str "ExoMars")] := by
  simp [build_row, add_extensions, add_asset, gpd_line_to_item, pystac_Item, eo_apply,
    proj_apply, ssys_apply, set_platform, set_instruments, set_constellation, set_mission,
    ensure_has_extension, setKV, TARGETS_PROPS, LOCAL_TIME_PROPS, TARGET_CLASS_PROPS,
    SolSysTargetClass.value]

/-- Claim C1 (amended): the item built from a record — after the asset and
all three extensions are attached — carries none of the domain attributes
in its properties bag; the bag holds exactly the serialized temporal
fields, the fixed platform metadata and the namespaced extension
properties. -/
theorem c1_no_domain_attrs_in_properties (r : ObsRecord) (bands : List Band) :
    (build_row bands r).properties.map Prod.fst =
      ["datetime", "start_datetime", "end_datetime", "platform", "instruments",
        "constellation", "eo:bands", TARGETS_PROPS, LOCAL_TIME_PROPS,
        TARGET_CLASS_PROPS, "proj:wkt2", "mission"] ∧
    ∀ k ∈ domain_attr_keys, lookupKV (build_row bands r).properties k = none := by
  rw [build_row_props]
  refine ⟨rfl, ?_⟩
  intro k hk
  fin_cases hk <;>
    simp [lookupKV, TARGETS_PROPS, LOCAL_TIME_PROPS, TARGET_CLASS_PROPS]

/-- Counterexample for C1 as stated: at a concrete record the built item
has no domain attribute in its properties bag. -/
theorem c1_counterexample :
    ¬ domain_attrs_populated (build_row [] ex_record).properties := by
  intro hcontra
  have h := hcontra "incidence_angle" (by simp [domain_attr_keys])
  rw [build_row_props] at h
  simp [lookupKV, TARGETS_PROPS, LOCAL_TIME_PROPS, TARGET_CLASS_PROPS] at h

/-! Claim C5: fold lemmas for the extent aggregation. -/

/-- A min-fold is bounded by its initial value. -/
theorem foldl_min_le_init (xs : List Int) : ∀ x : Int, xs.foldl min x ≤ x := by
  induction xs with
  | nil => intro x; simp
  | cons a t ih =>
      intro x
      rw [List.foldl_cons]
      exact le_trans (ih (min x a)) (min_le_left x a)

/-- A min-fold is bounded by every list element. -/
theorem foldl_min_le_mem (xs : List Int) : ∀ x y, y ∈ xs → xs.foldl min x ≤ y := by
  induction xs with
  | nil => intro x y hy; cases hy
  | cons a t ih =>
      intro x y hy
      rw [List.foldl_cons]
      rcases List.mem_cons.mp hy with rfl | ht
      · exact le_trans (foldl_min_le_init t (min x y)) (min_le_right x y)
      · exact ih (min x a) y ht

/-- A min-fold returns its initial value or some list element. -/
theorem foldl_min_mem (xs : List Int) : ∀ x, xs.foldl min x = x ∨ xs.foldl min x ∈ xs := by
  induction xs with
  | nil => intro x; left; rfl
  | cons a t ih =>
      intro x
      rw [List.foldl_cons]
      rcases ih (min x a) with h | h
      · rcases min_choice x a with hx | ha
        · left; rw [h, hx]
        · right; rw [h, ha]; exact List.mem_cons_self a t
      · right; exact List.mem_cons_of_mem a h

/-- A max-fold dominates its initial value. -/
theorem foldl_max_init_le (xs : List Int) : ∀ x : Int, x ≤ xs.foldl max x := by
  induction xs with
  | nil => intro x; simp
  | cons a t ih =>
      intro x
      rw [List.foldl_cons]
      exact le_trans (le_max_left x a) (ih (max x a))

/-- A max-fold dominates every list element. -/
theorem foldl_max_mem_le (xs : List Int) : ∀ x y, y ∈ xs → y ≤ xs.foldl max x := by
  induction xs with
  | nil => intro x y hy; cases hy
  | cons a t ih =>
      intro x y hy
      rw [List.foldl_cons]
      rcases List.mem_cons.mp hy with rfl | ht
      · exact le_trans (le_max_right x y) (foldl_max_init_le t (max x y))
      · exact ih (max x a) y ht

/-- A max-fold returns its initial value or some list element. -/
theorem foldl_max_mem (xs : List Int) : ∀ x, xs.foldl max x = x ∨ xs.foldl max x ∈ xs := by
  induction xs with
  | nil => intro x; left; rfl
  | cons a t ih =>
      intro x
      rw [List.foldl_cons]
      rcases ih (max x a) with h | h
      · rcases max_choice x a with hx | ha
        · left; rw [h, hx]
        · right; rw [h, ha]; exact List.mem_cons_self a t
      · right; exact List.mem_cons_of_mem a h

/-- The min-fold of a projection over a head and tail is a lower bound of
the projection on every record of the list. -/
theorem headMin_le (f : ObsRecord → Int) (r0 : ObsRecord) (rest : List ObsRecord) :
    ∀ r ∈ r0 :: rest, foldlMin (f r0) (rest.map f) ≤ f r := by
  intro r hr
  rcases List.mem_cons.mp hr with rfl | hm
  · exact foldl_min_le_init _ _
  · exact foldl_min_le_mem _ _ _ (List.mem_map_of_mem f hm)

/-- The min-fold of a projection is attained on some record. -/
theorem headMin_attained (f : ObsRecord → Int) (r0 : ObsRecord) (rest : List ObsRecord) :
    ∃ r ∈ r0 :: rest, foldlMin (f r0) (rest.map f) = f r := by
  rcases foldl_min_mem (rest.map f) (f r0) with h | h
  · exact ⟨r0, List.mem_cons_self _ _, h⟩
  · rcases List.mem_map.mp h with ⟨r, hr, hfr⟩
    exact ⟨r, List.mem_cons_of_mem _ hr, hfr.symm⟩

/-- The max-fold of a projection is an upper bound on every record. -/
theorem headMax_le (f : ObsRecord → Int) (r0 : ObsRecord) (rest : List ObsRecord) :
    ∀ r ∈ r0 :: rest, f r ≤ foldlMax (f r0) (rest.map f) := by
  intro r hr
  rcases List.mem_cons.mp hr with rfl | hm
  · exact foldl_max_init_le _ _
  · exact foldl_max_mem_le _ _ _ (List.mem_map_of_mem f hm)

/-- The max-fold of a projection is attained on some record. -/
theorem headMax_attained (f : ObsRecord → Int) (r0 : ObsRecord) (rest : List ObsRecord) :
    ∃ r ∈ r0 :: rest, foldlMax (f r0) (rest.map f) = f r := by
  rcases foldl_max_mem (rest.map f) (f r0) with h | h
  · exact ⟨r0, List.mem_cons_self _ _, h⟩
  · rcases List.mem_map.mp h with ⟨r, hr, hfr⟩
    exact ⟨r, List.mem_cons_of_mem _ hr, hfr.symm⟩

/-- Claim C5: for every non-empty record set, the spatial bounding box
computed by the build (total_bounds) contains every individual record
bounding box component-wise, and the temporal interval start
(utc_start_min) is exactly the least utc_start_time while its end
(utc_end_max) is exactly the greatest utc_end_time. -/
theorem c5_extent_bounds (rows : List ObsRecord) (h : rows ≠ []) :
    (∀ r ∈ rows,
      (total_bounds rows).1 ≤ r.minx ∧ (total_bounds rows).2.1 ≤ r.miny ∧
      r.maxx ≤ (total_bounds rows).2.2.1 ∧ r.maxy ≤ (total_bounds rows).2.2.2 ∧
      utc_start_min rows ≤ r.utc_start_time ∧ r.utc_end_time ≤ utc_end_max rows) ∧
    (∃ r ∈ rows, utc_start_min rows = r.utc_start_time) ∧
    (∃ r ∈ rows, utc_end_max rows = r.utc_end_time) := by
  cases rows with
  | nil => exact absurd rfl h
  | cons r0 rest =>
      simp only [total_bounds, utc_start_min, utc_end_max]
      refine ⟨?_, ?_, ?_⟩
      · intro r hr
        exact ⟨headMin_le (fun q => q.minx) r0 rest r hr,
          headMin_le (fun q => q.miny) r0 rest r hr,
          headMax_le (fun q => q.maxx) r0 rest r hr,
          headMax_le (fun q => q.maxy) r0 rest r hr,
          headMin_le (fun q => q.utc_start_time) r0 rest r hr,
          headMax_le (fun q => q.utc_end_time) r0 rest r hr⟩
      · exact headMin_attained (fun q => q.utc_start_time) r0 rest
      · exact headMax_attained (fun q => q.utc_end_time) r0 rest

/-- The concrete non-empty record set of the C5 witness. -/
def ex_rows : List ObsRecord := [ex_record, ex_record2]

/-- Witness for C5 at a concrete two-record set. -/
theorem c5_extent_bounds_witness :
    (∀ r ∈ ex_rows,
      (total_bounds ex_rows).1 ≤ r.minx ∧ (total_bounds ex_rows).2.1 ≤ r.miny ∧
      r.maxx ≤ (total_bounds ex_rows).2.2.1 ∧ r.maxy ≤ (total_bounds ex_rows).2.2.2 ∧
      utc_start_min ex_rows ≤ r.utc_start_time ∧ r.utc_end_time ≤ utc_end_max ex_rows) ∧
    (∃ r ∈ ex_rows, utc_start_min ex_rows = r.utc_start_time) ∧
    (∃ r ∈ ex_rows, utc_end_max ex_rows = r.utc_end_time) :=
  c5_extent_bounds ex_rows (by decide)

/-! Claim C3: what the loader raises when a file fails to parse. -/

/-- If some parse result in the list is an error, the first-error scan
returns an error that occurs in the list. -/
theorem first_parse_err_some_of_err (l : List ParseResult) :
    ∀ c m, ParseResult.err c m ∈ l →
      ∃ c2 m2, first_parse_err l = some ⟨c2, m2⟩ ∧ ParseResult.err c2 m2 ∈ l := by
  induction l with
  | nil => intro c m h; cases h
  | cons p t ih =>
      intro c m h
      cases p with
      | ok rows =>
          rcases List.mem_cons.mp h with heq | ht
          · cases heq
          · rcases ih c m ht with ⟨c2, m2, h1, h2⟩
            exact ⟨c2, m2, by simpa [first_parse_err] using h1,
              List.mem_cons_of_mem _ h2⟩
      | err c0 m0 =>
          exact ⟨c0, m0, rfl, List.mem_cons_self _ _⟩

/-- Claim C3 (amended): if any eligible input file fails to parse, the
loader re-raises the originating exception itself — the error carries the
class name and message of the exception of some failing file, not a
wrapping DataIntegrityError — and no table is returned to the caller. -/
theorem c3_loader_reraises_parse_error (files : List InputFile)
    (h : ∃ f ∈ input_file_iterator files, ∃ c m, f.parse = .err c m) :
    ∃ c m, folder_as_geopandas files = .error ⟨c, m⟩ ∧
      (∃ f ∈ input_file_iterator files, f.parse = .err c m) ∧
      ∀ rows, folder_as_geopandas files ≠ .ok rows := by
  rcases h with ⟨f, hf, c, m, hp⟩
  have hmem : ParseResult.err c m ∈ read_results files := by
    rw [read_results]
    exact hp ▸ List.mem_map_of_mem (·.parse) hf
  rcases first_parse_err_some_of_err _ c m hmem with ⟨c2, m2, h1, h2⟩
  have hres : folder_as_geopandas files = .error ⟨c2, m2⟩ := by
    rw [folder_as_geopandas, h1]
  refine ⟨c2, m2, hres, ?_, ?_⟩
  · rw [read_results] at h2
    rcases List.mem_map.mp h2 with ⟨g, hg, hgp⟩
    exact ⟨g, hg, hgp⟩
  · intro rows hcontra
    rw [hres] at hcontra
    cases hcontra

/-- The concrete file set of the C3 witness: one good file, one failing
file. -/
def c3_files : List InputFile := [ex_file1, bad_file]

/-- Witness for C3 (amended) at a concrete file set containing a failing
parse. -/
theorem c3_loader_reraises_parse_error_witness :
    ∃ c m, folder_as_geopandas c3_files = .error ⟨c, m⟩ ∧
      (∃ f ∈ input_file_iterator c3_files, f.parse = .err c m) ∧
      ∀ rows, folder_as_geopandas c3_files ≠ .ok rows :=
  c3_loader_reraises_parse_error c3_files
    ⟨bad_file, by decide, "JSONDecodeError", "Expecting value: line 1 column 1 (char 0)", rfl⟩

/-- Counterexample for C3 as stated: with a failing file the raised error
class is the originating JSONDecodeError, not DataIntegrityError. -/
theorem c3_counterexample :
    err_cls (folder_as_geopandas c3_files) = some "JSONDecodeError" ∧
    err_cls (folder_as_geopandas c3_files) ≠ some "DataIntegrityError" := by
  exact ⟨by decide, by decide⟩

/-! Claim C4: non-empty output folder without clearing authorization. -/

/-- Claim C4 (amended): for every build started with a non-empty input
folder, a non-empty output folder and clean_previous_output false, the
build raises ValueError — the code has no OutputNotEmptyError class — and
writes nothing. -/
theorem c4_output_not_empty_valueerror (catalog_id catalog_descr : String)
    (bands : List Band) (st : BuildState) (self_contained : Bool)
    (h1 : st.input_files ≠ []) (h2 : st.output_contents ≠ []) :
    create_catalog catalog_id catalog_descr bands st self_contained false =
      (.error ⟨"ValueError", output_not_empty_msg⟩, []) := by
  have hi : is_input_folder_empty st = false := by
    cases hf : st.input_files with
    | nil => exact absurd hf h1
    | cons a t => simp [is_input_folder_empty, hf]
  have ho : is_output_folder_empty st = false := by
    cases hf : st.output_contents with
    | nil => exact absurd hf h2
    | cons a t => simp [is_output_folder_empty, hf]
  simp [create_catalog, hi, ho]

/-- The concrete build state of the C4 witness: one input file, an
occupied output folder. -/
def c4_state : BuildState := ⟨[ex_file1], ["catalog.json"]⟩

/-- Witness for C4 (amended) at a concrete occupied output folder. -/
theorem c4_output_not_empty_valueerror_witness :
    create_catalog "nomad-catalog" "NOMAD observations" [] c4_state true false =
      (.error ⟨"ValueError", output_not_empty_msg⟩, []) :=
  c4_output_not_empty_valueerror "nomad-catalog" "NOMAD observations" [] c4_state true
    (by decide) (by decide)

/-- Counterexample for C4 as stated: the error raised on an occupied
output folder is ValueError, not OutputNotEmptyError. -/
theorem c4_counterexample :
    err_cls (create_catalog "nomad-catalog" "NOMAD observations" [] c4_state true false).1
        = some "ValueError" ∧
    err_cls (create_catalog "nomad-catalog" "NOMAD observations" [] c4_state true false).1
        ≠ some "OutputNotEmptyError" := by
  exact ⟨by decide, by decide⟩

/-! Claim C7: empty or ineligible input. -/

/-- Claim C7 (amended): on a completely empty input folder the build fails
fast with FileNotFoundError — the code has no EmptyInputError class — and
writes nothing; and whenever the input folder holds no eligible
(geojson/json) file at all, the build aborts with an error before any
write occurs. -/
theorem c7_empty_input_aborts_before_writes (catalog_id catalog_descr : String)
    (bands : List Band) (st : BuildState) (self_contained clean_previous_output : Bool) :
    (st.input_files = [] →
      create_catalog catalog_id catalog_descr bands st self_contained clean_previous_output =
        (.error ⟨"FileNotFoundError", input_empty_msg⟩, [])) ∧
    ((input_file_iterator st.input_files).isEmpty = true →
      (∃ e : PyErr,
        (create_catalog catalog_id catalog_descr bands st self_contained
          clean_previous_output).1 = .error e) ∧
      (create_catalog catalog_id catalog_descr bands st self_contained
        clean_previous_output).2 = []) := by
  constructor
  · intro h
    simp [create_catalog, is_input_folder_empty, h]
  · intro h
    by_cases hin : st.input_files = []
    · simp [create_catalog, is_input_folder_empty, hin]
    · have hi : is_input_folder_empty st = false := by
        cases hf : st.input_files with
        | nil => exact absurd hf hin
        | cons a t => simp [is_input_folder_empty, hf]
      have hiter : input_file_iterator st.input_files = [] := by
        cases hl : input_file_iterator st.input_files with
        | nil => rfl
        | cons a t => rw [hl] at h; cases h
      have hfold : folder_as_geopandas st.input_files =
          .error ⟨"ValueError", "No objects to concatenate"⟩ := by
        have hnone : first_parse_err (read_results st.input_files) = none := by
          rw [read_results, hiter]; rfl
        rw [folder_as_geopandas, hnone, if_pos h]
      have hsave : save_to_format st.input_files "lno_10_days.csv" "csv" =
          .error ⟨"ValueError", "No objects to concatenate"⟩ := by
        rw [save_to_format, hfold]
      by_cases hoc : (!is_output_folder_empty st && !clean_previous_output) = true
      · simp [create_catalog, hi, hoc]
      · simp [create_catalog, hi, hoc, hsave]

/-- Witness for C7 (amended) at a concrete empty input folder. -/
theorem c7_empty_input_aborts_before_writes_witness :
    (create_catalog "nomad-catalog" "NOMAD observations" [] ⟨[], []⟩ true false =
      (.error ⟨"FileNotFoundError", input_empty_msg⟩, [])) ∧
    ((∃ e : PyErr,
        (create_catalog "nomad-catalog" "NOMAD observations" [] ⟨[], []⟩ true false).1
          = .error e) ∧
      (create_catalog "nomad-catalog" "NOMAD observations" [] ⟨[], []⟩ true false).2 = []) :=
  ⟨(c7_empty_input_aborts_before_writes "nomad-catalog" "NOMAD observations" []
      ⟨[], []⟩ true false).1 rfl,
    (c7_empty_input_aborts_before_writes "nomad-catalog" "NOMAD observations" []
      ⟨[], []⟩ true false).2 (by decide)⟩

/-- Counterexample for C7 as stated: the error raised on an empty input
folder is FileNotFoundError, not EmptyInputError. -/
theorem c7_counterexample :
    err_cls (create_catalog "nomad-catalog" "NOMAD observations" [] ⟨[], []⟩ true false).1
        = some "FileNotFoundError" ∧
    err_cls (create_catalog "nomad-catalog" "NOMAD observations" [] ⟨[], []⟩ true false).1
        ≠ some "EmptyInputError" := by
  exact ⟨by decide, by decide⟩

/-! Claim C2: the shape of the built catalog tree. -/

/-- A successful load returns exactly the concatenation of all parsed
rows in file-enumeration order. -/
theorem folder_ok_rows (files : List InputFile) (rows : List ObsRecord)
    (h : folder_as_geopandas files = .ok rows) :
    rows = concat_rows (read_results files) := by
  rw [folder_as_geopandas] at h
  cases hfe : first_parse_err (read_results files) with
  | some e => rw [hfe] at h; cases h
  | none =>
      rw [hfe] at h
      by_cases hit : (input_file_iterator files).isEmpty
      · rw [if_pos hit] at h; cases h
      · rw [if_neg hit] at h
        injection h with h
        exact h.symm

/-- A successful intermediate export returns exactly the concatenated
table. -/
theorem save_ok_rows (files : List InputFile) (fn fmt : String)
    (rows : List ObsRecord) (w : List String)
    (h : save_to_format files fn fmt = .ok (rows, w)) :
    rows = concat_rows (read_results files) := by
  rw [save_to_format] at h
  cases hf : folder_as_geopandas files with
  | error e => rw [hf] at h; cases h
  | ok gdf =>
      rw [hf] at h
      have hg := folder_ok_rows files gdf hf
      split_ifs at h <;>
        (injection h with h; injection h with h1 h2; exact h1 ▸ hg)

/-- Folding the per-row add_item loop appends the built items in row order
and never creates sub-collections. -/
theorem foldl_add_item_spec (bands : List Band) (rows : List ObsRecord) :
    ∀ c : Collection,
      (rows.foldl (fun c row => c.add_item (build_row bands row)) c).items
          = c.items ++ rows.map (build_row bands) ∧
      (rows.foldl (fun c row => c.add_item (build_row bands row)) c).children
          = c.children := by
  induction rows with
  | nil => intro c; simp
  | cons r t ih =>
      intro c
      rw [List.foldl_cons, List.map_cons]
      rcases ih (c.add_item (build_row bands r)) with ⟨h1, h2⟩
      constructor
      · rw [h1]; cases c; simp [Collection.add_item, Collection.items]
      · rw [h2]; cases c; rfl

/-- The id of a built item is the record psa_lid. -/
theorem build_row_id (bands : List Band) (r : ObsRecord) :
    (build_row bands r).id = r.psa_lid := rfl

/-- Claim C2 (amended): every successful build produces one catalog whose
single child is one collection holding, directly and in table row order,
one item per input record (identified by psa_lid); the collection has no
sub-collections — the table is not partitioned by diffraction_order. -/
theorem c2_single_collection_all_records (catalog_id catalog_descr : String)
    (bands : List Band) (st : BuildState)
    (self_contained clean_previous_output : Bool) (cat : Catalog)
    (h : (create_catalog catalog_id catalog_descr bands st self_contained
      clean_previous_output).1 = .ok cat) :
    ∃ col : Collection,
      cat.children = [col] ∧
      col.children = [] ∧
      col.items.map Item.id
        = (concat_rows (read_results st.input_files)).map ObsRecord.psa_lid := by
  rw [create_catalog] at h
  by_cases h1 : is_input_folder_empty st = true
  · rw [if_pos h1] at h; cases h
  · rw [if_neg h1] at h
    by_cases h2 : (!is_output_folder_empty st && !clean_previous_output) = true
    · rw [if_pos h2] at h; cases h
    · rw [if_neg h2] at h
      cases hs : save_to_format st.input_files "lno_10_days.csv" "csv" with
      | error e => rw [hs] at h; cases h
      | ok p =>
          obtain ⟨df, w⟩ := p
          rw [hs] at h
          dsimp only at h
          by_cases h3 : df.isEmpty = true
          · rw [if_pos h3] at h; cases h
          · rw [if_neg h3] at h
            simp only [Except.ok.injEq] at h
            subst h
            refine ⟨_, rfl, ?_, ?_⟩
            · exact (foldl_add_item_spec bands df _).2
            · rw [(foldl_add_item_spec bands df _).1]
              rw [← save_ok_rows st.input_files _ _ df w hs]
              simp only [Collection.items, List.nil_append, List.map_map]
              exact List.map_congr_left (fun r _ => build_row_id bands r)

/-- The concrete build state of the C2 theorems: two files whose records
carry two distinct diffraction_order values. -/
def c2_state : BuildState := ⟨[ex_file1, ex_file2], []⟩

/-- The catalog of a successful build outcome (arbitrary placeholder on
errors). -/
def catalog_of (r : Except PyErr Catalog) : Catalog :=
  match r with
  | .ok c => c
  | .error _ => ⟨"", "", []⟩

/-- Witness for C2 (amended) at a concrete two-order input. -/
theorem c2_single_collection_all_records_witness :
    ∃ col : Collection,
      (catalog_of (create_catalog "nomad-catalog" "NOMAD observations" []
          c2_state true false).1).children = [col] ∧
      col.children = [] ∧
      col.items.map Item.id
        = (concat_rows (read_results c2_state.input_files)).map ObsRecord.psa_lid :=
  c2_single_collection_all_records "nomad-catalog" "NOMAD observations" [] c2_state
    true false _ rfl

/-- Number of sub-collections under the root collection of a built
catalog, when the catalog has exactly one root collection. -/
def root_subcollection_count (r : Except PyErr Catalog) : Option Nat :=
  match r with
  | .ok cat =>
      match cat.children with
      | [col] => some col.children.length
      | _ => none
  | .error _ => none

/-- Number of distinct diffraction_order values in a record set. -/
def distinct_order_count (rows : List ObsRecord) : Nat :=
  ((rows.map (·.diffraction_order)).dedup).length

/-- Counterexample for C2 as stated: on an input with two distinct
diffraction_order values the build succeeds with zero sub-collections
under the root collection, not two. -/
theorem c2_counterexample :
    distinct_order_count (concat_rows (read_results c2_state.input_files)) = 2 ∧
    root_subcollection_count
        (create_catalog "nomad-catalog" "NOMAD observations" [] c2_state true false).1
      = some 0 ∧
    root_subcollection_count
        (create_catalog "nomad-catalog" "NOMAD observations" [] c2_state true false).1
      ≠ some 2 := by
  refine ⟨by decide, by decide, by decide⟩

/-! Claim C6: the format flag of the tabular intermediate export. -/

/-- The concrete file set of the C6 theorem. -/
def c6_files : List InputFile := [ex_file1]

/-- Claim C6 (code bug): the declared FileFormat flag values "gpkg" and
"geosjon" write no file at all — the write branches of save_to_format test
the literals "geopackage" and "geojson", which no declared flag value
equals, and the shapefile default fires only for "shp"/"other" — so
selecting the geopackage or GeoJSON flag silently skips the export. -/
theorem c6_format_flag_bug :
    "gpkg" ∈ FileFormat_values ∧ "geosjon" ∈ FileFormat_values ∧
    "geopackage" ∉ FileFormat_values ∧ "geojson" ∉ FileFormat_values ∧
    save_to_format c6_files "lno_10_days.gpkg" "gpkg" = .ok ([ex_record], []) ∧
    save_to_format c6_files "lno_10_days.geojson" "geosjon" = .ok ([ex_record], []) ∧
    save_to_format c6_files "lno_10_days.shp" "shp"
      = .ok ([ex_record], ["export:lno_10_days.shp:default"]) := by
  refine ⟨by decide, by decide, by decide, by decide, rfl, rfl, rfl⟩

end NomadStac
